import Mathlib

/-!
# MultiplayerSessions: session subsystem and menu

A shallow embedding of `UMultiplayerSessionsSubsystem`
(MultiplayerSessionsSubsystem.cpp / .h) and of `UMenu::OnFindSessions` (Menu.cpp).

* The online session interface reached through `SessionInterface` is an explicit
  record `IOnlineSession`: its delegate lists, the requests submitted to it, and the
  synchronous replies it gives. A null `SessionInterface` is `none`.
* Broadcasts on the five `MultiplayerOn...Complete` delegates are appended to the
  trace `Broadcasts`.
* Dereferencing a null pointer is `Except.error Fault.nullDereference`.
* An `FString` is a string; `FString::operator==` ignores the case of ASCII letters and is
  `FStringEquals`. An `FName` is represented by the string of its comparison entry, so
  equality of names is equality of these strings. `int32` values are integers (no
  arithmetic is done on them).
-/

set_option linter.unusedVariables false

namespace MultiplayerSessions

/-! ## Engine value types -/

/-- Values of `EOnJoinSessionCompleteResult::Type`. -/
inductive EOnJoinSessionCompleteResult
  | Success
  | SessionIsFull
  | SessionDoesNotExist
  | CouldNotRetrieveAddress
  | AlreadyInSession
  | UnknownError
  deriving DecidableEq, Repr

/-- Values of `EOnlineDataAdvertisementType::Type`. -/
inductive EOnlineDataAdvertisementType
  | DontAdvertise
  | ViaPingOnly
  | ViaOnlineService
  | ViaOnlineServiceAndPing
  deriving DecidableEq, Repr

/-- One entry of the key/value bag of a session: its data and how it is advertised. -/
structure FOnlineSessionSetting where
  Data : String
  AdvertisementType : EOnlineDataAdvertisementType
  deriving DecidableEq, Repr

/-- The fields of `FOnlineSessionSettings` that the subsystem writes, and the
key/value bag `Settings`. -/
structure FOnlineSessionSettings where
  NumPublicConnections : Int
  bShouldAdvertise : Bool
  bAllowJoinInProgress : Bool
  bIsLANMatch : Bool
  bUsesPresence : Bool
  bAllowJoinViaPresence : Bool
  bUseLobbiesIfAvailable : Bool
  BuildUniqueId : Int
  Settings : List (String × FOnlineSessionSetting)
  deriving DecidableEq, Repr

/-- `FOnlineSessionSettings::Set(Key, Value, Type)`: the entry under `Key` is replaced
when there is one, and added otherwise. -/
def FOnlineSessionSettings.Set (self : FOnlineSessionSettings) (Key : String) (Value : String)
    (InType : EOnlineDataAdvertisementType) : FOnlineSessionSettings :=
  { self with
    Settings :=
      if (self.Settings.lookup Key).isSome then
        self.Settings.map (fun kv => if kv.1 == Key then (Key, ⟨Value, InType⟩) else kv)
      else
        self.Settings ++ [(Key, ⟨Value, InType⟩)] }

/-- `FOnlineSessionSettings::Get(Key, Value)` with `Value` an out-parameter: returns
whether the key is present together with the content of `Value` after the call, which is
the stored data when the key is present and the incoming `Value` otherwise. -/
def FOnlineSessionSettings.Get (self : FOnlineSessionSettings) (Key : String) (Value : String) :
    Bool × String :=
  match self.Settings.lookup Key with
  | some setting => (true, setting.Data)
  | none => (false, Value)

/-- The part of `FOnlineSession` read by this plugin: the owner and the settings. -/
structure FOnlineSession where
  OwningUserId : Nat
  SessionSettings : FOnlineSessionSettings
  deriving DecidableEq, Repr

/-- A search result `FOnlineSessionSearchResult`: the discovered session. -/
structure FOnlineSessionSearchResult where
  Session : FOnlineSession
  PingInMs : Int
  deriving DecidableEq, Repr

/-- Values of `EOnlineComparisonOp::Type` used here. -/
inductive EOnlineComparisonOp
  | Equals
  | NotEquals
  deriving DecidableEq, Repr

/-- The search object `FOnlineSessionSearch`: the query and the results written by the
backend. -/
structure FOnlineSessionSearch where
  MaxSearchResults : Int
  bIsLanQuery : Bool
  QuerySettings : List (String × Bool × EOnlineComparisonOp)
  SearchResults : List FOnlineSessionSearchResult
  deriving DecidableEq, Repr

/-- The well-known session name `NAME_GameSession`. -/
def NAME_GameSession : String := "GameSession"

/-- The query key `SEARCH_PRESENCE`. -/
def SEARCH_PRESENCE : String := "PRESENCESEARCH"

/-- A delegate handle `FDelegateHandle`, identified by its number. -/
abbrev FDelegateHandle := Nat

/-! ## The online session interface (backend) -/

/-- A request submitted to the backend. -/
inductive Request
  | CreateSession (HostingPlayerId : Nat) (SessionName : String)
      (NewSessionSettings : FOnlineSessionSettings)
  | FindSessions (SearchingPlayerId : Nat) (SearchSettings : FOnlineSessionSearch)
  | JoinSession (PlayerId : Nat) (SessionName : String)
      (DesiredSession : FOnlineSessionSearchResult)
  | DestroySession (SessionName : String)
  deriving DecidableEq, Repr

/-- The state of the object behind `SessionInterface` as far as the subsystem touches it.

* `SubsystemName` is what `IOnlineSubsystem::Get()->GetSubsystemName()` returns.
* `NamedSessions` holds the names for which `GetNamedSession` returns a session.
* The four delegate lists hold the handles added by `AddOn...CompleteDelegate_Handle`.
* `Submitted` logs, in order, the requests passed to `CreateSession`, `FindSessions`,
  `JoinSession` and `DestroySession`.
* The four `...Accepted` flags are the values those calls return synchronously.
-/
structure IOnlineSession where
  SubsystemName : String
  NamedSessions : List String
  NextHandle : Nat
  CreateSessionCompleteDelegates : List FDelegateHandle
  FindSessionsCompleteDelegates : List FDelegateHandle
  JoinSessionCompleteDelegates : List FDelegateHandle
  DestroySessionCompleteDelegates : List FDelegateHandle
  Submitted : List Request
  CreateSessionAccepted : Bool
  FindSessionsAccepted : Bool
  JoinSessionAccepted : Bool
  DestroySessionAccepted : Bool
  deriving DecidableEq, Repr

namespace IOnlineSession

/-- `GetNamedSession(SessionName)`, reduced to whether the returned pointer is non-null. -/
def GetNamedSession (si : IOnlineSession) (SessionName : String) : Bool :=
  si.NamedSessions.contains SessionName

/-- `AddOnCreateSessionCompleteDelegate_Handle`: registers and returns the handle. -/
def AddOnCreateSessionCompleteDelegate_Handle (si : IOnlineSession) :
    FDelegateHandle × IOnlineSession :=
  (si.NextHandle,
    { si with
      NextHandle := si.NextHandle + 1
      CreateSessionCompleteDelegates := si.CreateSessionCompleteDelegates ++ [si.NextHandle] })

/-- `ClearOnCreateSessionCompleteDelegate_Handle`: removes the delegate with this handle. -/
def ClearOnCreateSessionCompleteDelegate_Handle (si : IOnlineSession) (h : FDelegateHandle) :
    IOnlineSession :=
  { si with
    CreateSessionCompleteDelegates := si.CreateSessionCompleteDelegates.filter (fun x => x != h) }

/-- `AddOnFindSessionsCompleteDelegate_Handle`: registers and returns the handle. -/
def AddOnFindSessionsCompleteDelegate_Handle (si : IOnlineSession) :
    FDelegateHandle × IOnlineSession :=
  (si.NextHandle,
    { si with
      NextHandle := si.NextHandle + 1
      FindSessionsCompleteDelegates := si.FindSessionsCompleteDelegates ++ [si.NextHandle] })

/-- `ClearOnFindSessionsCompleteDelegate_Handle`: removes the delegate with this handle. -/
def ClearOnFindSessionsCompleteDelegate_Handle (si : IOnlineSession) (h : FDelegateHandle) :
    IOnlineSession :=
  { si with
    FindSessionsCompleteDelegates := si.FindSessionsCompleteDelegates.filter (fun x => x != h) }

/-- `AddOnJoinSessionCompleteDelegate_Handle`: registers and returns the handle. -/
def AddOnJoinSessionCompleteDelegate_Handle (si : IOnlineSession) :
    FDelegateHandle × IOnlineSession :=
  (si.NextHandle,
    { si with
      NextHandle := si.NextHandle + 1
      JoinSessionCompleteDelegates := si.JoinSessionCompleteDelegates ++ [si.NextHandle] })

/-- `ClearOnJoinSessionCompleteDelegate_Handle`: removes the delegate with this handle. -/
def ClearOnJoinSessionCompleteDelegate_Handle (si : IOnlineSession) (h : FDelegateHandle) :
    IOnlineSession :=
  { si with
    JoinSessionCompleteDelegates := si.JoinSessionCompleteDelegates.filter (fun x => x != h) }

/-- `AddOnDestroySessionCompleteDelegate_Handle`: registers and returns the handle. -/
def AddOnDestroySessionCompleteDelegate_Handle (si : IOnlineSession) :
    FDelegateHandle × IOnlineSession :=
  (si.NextHandle,
    { si with
      NextHandle := si.NextHandle + 1
      DestroySessionCompleteDelegates := si.DestroySessionCompleteDelegates ++ [si.NextHandle] })

/-- `ClearOnDestroySessionCompleteDelegate_Handle`: removes the delegate with this handle. -/
def ClearOnDestroySessionCompleteDelegate_Handle (si : IOnlineSession) (h : FDelegateHandle) :
    IOnlineSession :=
  { si with
    DestroySessionCompleteDelegates :=
      si.DestroySessionCompleteDelegates.filter (fun x => x != h) }

/-- `CreateSession(HostingPlayerId, SessionName, NewSessionSettings)`: the request is
logged and the synchronous reply returned. -/
def CreateSession (si : IOnlineSession) (HostingPlayerId : Nat) (SessionName : String)
    (NewSessionSettings : FOnlineSessionSettings) : Bool × IOnlineSession :=
  (si.CreateSessionAccepted,
    { si with
      Submitted :=
        si.Submitted ++ [Request.CreateSession HostingPlayerId SessionName NewSessionSettings] })

/-- `FindSessions(SearchingPlayerId, SearchSettings)`: logged, reply returned. -/
def FindSessions (si : IOnlineSession) (SearchingPlayerId : Nat)
    (SearchSettings : FOnlineSessionSearch) : Bool × IOnlineSession :=
  (si.FindSessionsAccepted,
    { si with Submitted := si.Submitted ++ [Request.FindSessions SearchingPlayerId SearchSettings] })

/-- `JoinSession(PlayerId, SessionName, DesiredSession)`: logged, reply returned. -/
def JoinSession (si : IOnlineSession) (PlayerId : Nat) (SessionName : String)
    (DesiredSession : FOnlineSessionSearchResult) : Bool × IOnlineSession :=
  (si.JoinSessionAccepted,
    { si with Submitted := si.Submitted ++ [Request.JoinSession PlayerId SessionName DesiredSession] })

/-- `DestroySession(SessionName)`: logged, reply returned. -/
def DestroySession (si : IOnlineSession) (SessionName : String) : Bool × IOnlineSession :=
  (si.DestroySessionAccepted,
    { si with Submitted := si.Submitted ++ [Request.DestroySession SessionName] })

end IOnlineSession

/-! ## The subsystem -/

/-- A fault that ends the run: a member access through a null pointer. -/
inductive Fault
  | nullDereference
  deriving DecidableEq, Repr

/-- A broadcast on one of the five delegates the menu binds to. -/
inductive Event
  | MultiplayerOnCreateSessionComplete (bWasSuccessful : Bool)
  | MultiplayerOnFindSessionsComplete (SessionResults : List FOnlineSessionSearchResult)
      (bWasSuccessful : Bool)
  | MultiplayerOnJoinSessionsComplete (Result : EOnJoinSessionCompleteResult)
  | MultiplayerOnDestroySessionsComplete (bWasSuccessful : Bool)
  | MultiplayerOnStartSessionsComplete (bWasSuccessful : Bool)
  deriving DecidableEq, Repr

/-- The members of `UMultiplayerSessionsSubsystem`.

* `SessionInterface` is the shared pointer to the backend, `none` when null.
* `LocalPlayer` is the net id obtained by
  `GetWorld()->GetFirstLocalPlayerFromController()->GetPreferredUniqueNetId()`,
  `none` when the world has no local player.
* `Broadcasts` is the trace of broadcasts made so far.
-/
structure UMultiplayerSessionsSubsystem where
  SessionInterface : Option IOnlineSession
  LocalPlayer : Option Nat
  LastSessionSettings : Option FOnlineSessionSettings
  LastSessionSearch : Option FOnlineSessionSearch
  CreateSessionCompleteDelegateHandle : FDelegateHandle
  FindSessionsCompleteDelegateHandle : FDelegateHandle
  JoinSessionCompleteDelegateHandle : FDelegateHandle
  DestroySessionCompleteDelegateHandle : FDelegateHandle
  bCreateSessionOnDestroy : Bool
  LastNumPublicConnections : Int
  LastMatchType : String
  Broadcasts : List Event
  deriving DecidableEq, Repr

/-- Member access through a pointer: the pointee, or a fault when the pointer is null. -/
def deref {α : Type} : Option α → Except Fault α
  | some a => Except.ok a
  | none => Except.error Fault.nullDereference

namespace UMultiplayerSessionsSubsystem

/-- `Broadcast` on a delegate of the subsystem: the event is appended to the trace. -/
def Broadcast (self : UMultiplayerSessionsSubsystem) (e : Event) :
    UMultiplayerSessionsSubsystem :=
  { self with Broadcasts := self.Broadcasts ++ [e] }

/-- `UMultiplayerSessionsSubsystem::DestroySession` (lines 124-140). -/
def DestroySession (self : UMultiplayerSessionsSubsystem) :
    Except Fault UMultiplayerSessionsSubsystem :=
  -- if(SessionInterface) { Broadcast(false); return; }
  if self.SessionInterface.isSome then
    Except.ok (self.Broadcast (Event.MultiplayerOnDestroySessionsComplete false))
  else do
    let si ← deref self.SessionInterface
    let (h, si) := si.AddOnDestroySessionCompleteDelegate_Handle
    let self := { self with DestroySessionCompleteDelegateHandle := h }
    let (accepted, si) := si.DestroySession NAME_GameSession
    if !accepted then
      let si :=
        si.ClearOnDestroySessionCompleteDelegate_Handle self.DestroySessionCompleteDelegateHandle
      Except.ok (({ self with SessionInterface := some si }).Broadcast
        (Event.MultiplayerOnDestroySessionsComplete false))
    else
      Except.ok { self with SessionInterface := some si }

/-- `UMultiplayerSessionsSubsystem::CreateSession` (lines 24-70). -/
def CreateSession (NumPublicConnections : Int) (MatchType : String)
    (self : UMultiplayerSessionsSubsystem) : Except Fault UMultiplayerSessionsSubsystem :=
  -- if(!SessionInterface.IsValid()) { return; }
  if !self.SessionInterface.isSome then
    Except.ok self
  else do
    let si ← deref self.SessionInterface
    let ExistingSession := si.GetNamedSession NAME_GameSession
    -- if(ExistingSession) { ...; DestroySession(); }   (no return: control falls through)
    let self ←
      if ExistingSession then
        DestroySession
          { self with
            bCreateSessionOnDestroy := true
            LastNumPublicConnections := NumPublicConnections
            LastMatchType := MatchType }
      else
        Except.ok self
    let si ← deref self.SessionInterface
    let (h, si) := si.AddOnCreateSessionCompleteDelegate_Handle
    let self := { self with CreateSessionCompleteDelegateHandle := h }
    let settings : FOnlineSessionSettings :=
      ({ NumPublicConnections := NumPublicConnections
         bShouldAdvertise := true
         bAllowJoinInProgress := true
         bIsLANMatch := si.SubsystemName == "NULL"
         bUsesPresence := true
         bAllowJoinViaPresence := true
         bUseLobbiesIfAvailable := true
         BuildUniqueId := 1
         Settings := [] } : FOnlineSessionSettings).Set "MatchType" MatchType
        EOnlineDataAdvertisementType.ViaOnlineServiceAndPing
    let self := { self with LastSessionSettings := some settings }
    let LocalPlayer ← deref self.LocalPlayer
    let (accepted, si) := si.CreateSession LocalPlayer NAME_GameSession settings
    if !accepted then
      let si :=
        si.ClearOnCreateSessionCompleteDelegate_Handle self.CreateSessionCompleteDelegateHandle
      Except.ok (({ self with SessionInterface := some si }).Broadcast
        (Event.MultiplayerOnCreateSessionComplete false))
    else
      Except.ok { self with SessionInterface := some si }

/-- `UMultiplayerSessionsSubsystem::FindSessions` (lines 71-97). The search object starts
with no results and with the one query setting written here. -/
def FindSessions (MaxSearchResults : Int) (self : UMultiplayerSessionsSubsystem) :
    Except Fault UMultiplayerSessionsSubsystem :=
  -- if(!SessionInterface.IsValid()) { return; }
  if !self.SessionInterface.isSome then
    Except.ok self
  else do
    let si ← deref self.SessionInterface
    let (h, si) := si.AddOnFindSessionsCompleteDelegate_Handle
    let self := { self with FindSessionsCompleteDelegateHandle := h }
    let search : FOnlineSessionSearch :=
      { MaxSearchResults := MaxSearchResults
        bIsLanQuery := si.SubsystemName == "NULL"
        QuerySettings := [(SEARCH_PRESENCE, true, EOnlineComparisonOp.Equals)]
        SearchResults := [] }
    let self := { self with LastSessionSearch := some search }
    let LocalPlayer ← deref self.LocalPlayer
    let (accepted, si) := si.FindSessions LocalPlayer search
    if !accepted then
      let si :=
        si.ClearOnFindSessionsCompleteDelegate_Handle self.FindSessionsCompleteDelegateHandle
      Except.ok (({ self with SessionInterface := some si }).Broadcast
        (Event.MultiplayerOnFindSessionsComplete [] false))
    else
      Except.ok { self with SessionInterface := some si }

/-- `UMultiplayerSessionsSubsystem::JoinSession` (lines 98-123). -/
def JoinSession (SessionResult : FOnlineSessionSearchResult)
    (self : UMultiplayerSessionsSubsystem) : Except Fault UMultiplayerSessionsSubsystem :=
  if !self.SessionInterface.isSome then
    Except.ok (self.Broadcast
      (Event.MultiplayerOnJoinSessionsComplete EOnJoinSessionCompleteResult.UnknownError))
  else do
    let si ← deref self.SessionInterface
    let (h, si) := si.AddOnJoinSessionCompleteDelegate_Handle
    let self := { self with JoinSessionCompleteDelegateHandle := h }
    let LocalPlayer ← deref self.LocalPlayer
    let (accepted, si) := si.JoinSession LocalPlayer NAME_GameSession SessionResult
    if !accepted then
      let si :=
        si.ClearOnJoinSessionCompleteDelegate_Handle self.JoinSessionCompleteDelegateHandle
      Except.ok (({ self with SessionInterface := some si }).Broadcast
        (Event.MultiplayerOnJoinSessionsComplete EOnJoinSessionCompleteResult.UnknownError))
    else
      Except.ok { self with SessionInterface := some si }

/-- `UMultiplayerSessionsSubsystem::OnCreateSessionComplete` (lines 145-155). -/
def OnCreateSessionComplete (SessionName : String) (bWasSuccessful : Bool)
    (self : UMultiplayerSessionsSubsystem) : Except Fault UMultiplayerSessionsSubsystem :=
  match self.SessionInterface with
  | some si =>
    let si :=
      si.ClearOnCreateSessionCompleteDelegate_Handle self.CreateSessionCompleteDelegateHandle
    Except.ok (({ self with SessionInterface := some si }).Broadcast
      (Event.MultiplayerOnCreateSessionComplete true))
  | none => Except.ok self

/-- `UMultiplayerSessionsSubsystem::OnFindSessionsComplete` (lines 156-178). -/
def OnFindSessionsComplete (bWasSuccessful : Bool) (self : UMultiplayerSessionsSubsystem) :
    Except Fault UMultiplayerSessionsSubsystem := do
  let self :=
    match self.SessionInterface with
    | some si =>
      { self with
        SessionInterface :=
          some (si.ClearOnFindSessionsCompleteDelegate_Handle
            self.FindSessionsCompleteDelegateHandle) }
    | none => self
  let search ← deref self.LastSessionSearch
  if search.SearchResults.length ≤ 0 then
    Except.ok (self.Broadcast (Event.MultiplayerOnFindSessionsComplete [] false))
  else
    Except.ok (self.Broadcast
      (Event.MultiplayerOnFindSessionsComplete search.SearchResults bWasSuccessful))

/-- `UMultiplayerSessionsSubsystem::OnJoinSessionComplete` (lines 179-193). -/
def OnJoinSessionComplete (SessionName : String) (Result : EOnJoinSessionCompleteResult)
    (self : UMultiplayerSessionsSubsystem) : Except Fault UMultiplayerSessionsSubsystem := do
  let self :=
    match self.SessionInterface with
    | some si =>
      ({ self with
        SessionInterface :=
          some (si.ClearOnJoinSessionCompleteDelegate_Handle
            self.JoinSessionCompleteDelegateHandle) }).Broadcast
        (Event.MultiplayerOnJoinSessionsComplete EOnJoinSessionCompleteResult.Success)
    | none => self
  -- line 192, outside the if: the join delegate is added again
  let si ← deref self.SessionInterface
  let (h, si) := si.AddOnJoinSessionCompleteDelegate_Handle
  Except.ok { self with JoinSessionCompleteDelegateHandle := h, SessionInterface := some si }

/-- `UMultiplayerSessionsSubsystem::OnDestroySessionComplete` (lines 194-212). -/
def OnDestroySessionComplete (SessionName : String) (bWasSuccessful : Bool)
    (self : UMultiplayerSessionsSubsystem) : Except Fault UMultiplayerSessionsSubsystem := do
  let self :=
    match self.SessionInterface with
    | some si =>
      { self with
        SessionInterface :=
          some (si.ClearOnDestroySessionCompleteDelegate_Handle
            self.DestroySessionCompleteDelegateHandle) }
    | none => self
  let self ←
    if bWasSuccessful && self.bCreateSessionOnDestroy then
      CreateSession self.LastNumPublicConnections self.LastMatchType
        { self with bCreateSessionOnDestroy := false }
    else
      Except.ok self
  Except.ok (self.Broadcast (Event.MultiplayerOnDestroySessionsComplete bWasSuccessful))

end UMultiplayerSessionsSubsystem

/-- `FString::operator==` (case-insensitive comparison): the two strings are equal once
every ASCII upper-case letter is replaced by its lower-case letter. -/
def FStringEquals (a b : String) : Bool :=
  a.data.map Char.toLower == b.data.map Char.toLower

/-! ## The menu -/

/-- A call the menu makes on the subsystem it points to. -/
inductive SubsystemCall
  | CreateSession (NumPublicConnections : Int) (MatchType : String)
  | FindSessions (MaxSearchResults : Int)
  | JoinSession (SessionResult : FOnlineSessionSearchResult)
  deriving DecidableEq, Repr

/-- The members of `UMenu` that `OnFindSessions` reads or writes.

* `MultiplayerSessionsSubsystem` tells whether the pointer of that name is non-null.
* `JoinButtonEnabled` and `HostButtonEnabled` are the enabled states of the two buttons.
* `SubsystemCalls` logs, in order, the calls made on the subsystem. What such a call
  does inside the subsystem is `UMultiplayerSessionsSubsystem.JoinSession` and is not
  replayed here.
-/
structure UMenu where
  MultiplayerSessionsSubsystem : Bool
  NumPublicConnections : Int
  MatchType : String
  PathToLobby : String
  HostButtonEnabled : Bool
  JoinButtonEnabled : Bool
  SubsystemCalls : List SubsystemCall
  deriving DecidableEq, Repr

namespace UMenu

/-- The range-for loop of `UMenu::OnFindSessions` (lines 175-185): `some` is the state
at the `return` inside the loop, `none` means the loop ran to its end. -/
def OnFindSessionsLoop (self : UMenu) : List FOnlineSessionSearchResult → Option UMenu
  | [] => none
  | Result :: rest =>
    let SettingsValue : String := ""
    let SettingsValue := (Result.Session.SessionSettings.Get "MatchType" SettingsValue).2
    -- if (SettingsValue == MatchType), on two FStrings
    if FStringEquals SettingsValue self.MatchType then
      some { self with SubsystemCalls := self.SubsystemCalls ++ [SubsystemCall.JoinSession Result] }
    else
      OnFindSessionsLoop self rest

/-- `UMenu::OnFindSessions` (lines 169-194). -/
def OnFindSessions (SessionResults : List FOnlineSessionSearchResult) (bWasSuccessful : Bool)
    (self : UMenu) : UMenu :=
  -- if(!MultiplayerSessionsSubsystem) { return; }
  if !self.MultiplayerSessionsSubsystem then
    self
  else
    match OnFindSessionsLoop self SessionResults with
    | some self' => self'
    | none =>
      if !bWasSuccessful || SessionResults.length == 0 then
        { self with JoinButtonEnabled := true }
      else
        self

end UMenu

/-- The MatchType attribute of a search result as the menu reads it: the value `Get`
leaves in a default-constructed string, so a result without the attribute reads as the
empty string. -/
def MatchTypeAttribute (r : FOnlineSessionSearchResult) : String :=
  (r.Session.SessionSettings.Get "MatchType" "").2

/-- A search result has a MatchType attribute equal to `mt`, read to the letter: the
attribute is present and its data is exactly `mt`. -/
def HasMatchType (r : FOnlineSessionSearchResult) (mt : String) : Bool :=
  r.Session.SessionSettings.Get "MatchType" "" == (true, mt)

/-! ## Scenarios: sequences of caller requests -/

/-- A `CreateSession` call of the caller together with what the backend holds when the
call is made: whether the game session exists, and the reply it gives to a create
submission. -/
structure CreateCall where
  NumPublicConnections : Int
  MatchType : String
  SessionExists : Bool
  Accepted : Bool
  deriving DecidableEq, Repr

/-- The backend as the environment presents it at a call. -/
def IOnlineSession.atCall (si : IOnlineSession) (SessionExists Accepted : Bool) :
    IOnlineSession :=
  { si with
    NamedSessions := if SessionExists then [NAME_GameSession] else []
    CreateSessionAccepted := Accepted }

/-- The subsystem with its backend changed by the environment. -/
def UMultiplayerSessionsSubsystem.withBackend (self : UMultiplayerSessionsSubsystem)
    (f : IOnlineSession → IOnlineSession) : UMultiplayerSessionsSubsystem :=
  { self with SessionInterface := self.SessionInterface.map f }

/-- One caller request: the environment sets up the backend, then `CreateSession` runs. -/
def issue (c : CreateCall) (s : UMultiplayerSessionsSubsystem) :
    Except Fault UMultiplayerSessionsSubsystem :=
  UMultiplayerSessionsSubsystem.CreateSession c.NumPublicConnections c.MatchType
    (s.withBackend (fun si => si.atCall c.SessionExists c.Accepted))

/-- A sequence of caller requests, run in order. -/
def issueAll : List CreateCall → UMultiplayerSessionsSubsystem →
    Except Fault UMultiplayerSessionsSubsystem
  | [], s => Except.ok s
  | c :: cs, s =>
    match issue c s with
    | Except.ok s' => issueAll cs s'
    | Except.error e => Except.error e

/-- The latest call of `A :: cs` that was made while the game session existed, `A` when
there is none among `cs`. -/
def lastDeferred (A : CreateCall) : List CreateCall → CreateCall
  | [] => A
  | c :: cs => lastDeferred (if c.SessionExists then c else A) cs

/-! ## Concrete states used by the examples -/

/-- A backend that holds the game session, has no delegate registered and accepts every
submission. -/
def backendWithSession : IOnlineSession :=
  { SubsystemName := "NULL"
    NamedSessions := [NAME_GameSession]
    NextHandle := 1
    CreateSessionCompleteDelegates := []
    FindSessionsCompleteDelegates := []
    JoinSessionCompleteDelegates := []
    DestroySessionCompleteDelegates := []
    Submitted := []
    CreateSessionAccepted := true
    FindSessionsAccepted := true
    JoinSessionAccepted := true
    DestroySessionAccepted := true }

/-- A freshly constructed subsystem on `backendWithSession`, local player 7. -/
def subsystemWithSession : UMultiplayerSessionsSubsystem :=
  { SessionInterface := some backendWithSession
    LocalPlayer := some 7
    LastSessionSettings := none
    LastSessionSearch := none
    CreateSessionCompleteDelegateHandle := 0
    FindSessionsCompleteDelegateHandle := 0
    JoinSessionCompleteDelegateHandle := 0
    DestroySessionCompleteDelegateHandle := 0
    bCreateSessionOnDestroy := false
    LastNumPublicConnections := 0
    LastMatchType := ""
    Broadcasts := [] }

/-- A freshly constructed subsystem for which no online subsystem was found:
`SessionInterface` is null. -/
def subsystemOffline : UMultiplayerSessionsSubsystem :=
  { subsystemWithSession with SessionInterface := none }

/-- Session settings carrying only a MatchType attribute. -/
def settingsOfMatchType (mt : String) : FOnlineSessionSettings :=
  { NumPublicConnections := 4
    bShouldAdvertise := true
    bAllowJoinInProgress := true
    bIsLANMatch := true
    bUsesPresence := true
    bAllowJoinViaPresence := true
    bUseLobbiesIfAvailable := true
    BuildUniqueId := 1
    Settings := [("MatchType", ⟨mt, EOnlineDataAdvertisementType.ViaOnlineServiceAndPing⟩)] }

/-- A search result owned by `owner` whose session has MatchType `mt`. -/
def resultOfMatchType (owner : Nat) (mt : String) : FOnlineSessionSearchResult :=
  { Session := { OwningUserId := owner, SessionSettings := settingsOfMatchType mt }
    PingInMs := 20 }

/-- A menu set up with the default arguments of `MenuSetup`, bound to a subsystem, with
the join button disabled by a click. -/
def menuAfterJoinClick : UMenu :=
  { MultiplayerSessionsSubsystem := true
    NumPublicConnections := 4
    MatchType := "Noskov"
    PathToLobby := "/Game/ThirdPerson/Maps/L_Lobby?listen?listen"
    HostButtonEnabled := true
    JoinButtonEnabled := false
    SubsystemCalls := [SubsystemCall.FindSessions 10000] }

/-- A search result owned by `owner` whose session carries no MatchType attribute. -/
def resultWithoutMatchType (owner : Nat) : FOnlineSessionSearchResult :=
  { Session :=
      { OwningUserId := owner
        SessionSettings := { settingsOfMatchType "" with Settings := [] } }
    PingInMs := 20 }

/-- A menu set up by `MenuSetup(4, "", ...)`, so that the remembered match type is the
empty string, bound to a subsystem, with the join button disabled by a click. -/
def menuWithEmptyMatchType : UMenu :=
  { menuAfterJoinClick with MatchType := "" }

/-- A subsystem with a deferred create pending: `CreateSession(4, "Ranked")` was saved,
and one destroy delegate is registered under the stored handle 1. -/
def subsystemAwaitingDestroy : UMultiplayerSessionsSubsystem :=
  { subsystemWithSession with
    SessionInterface :=
      some { backendWithSession with NextHandle := 2, DestroySessionCompleteDelegates := [1] }
    DestroySessionCompleteDelegateHandle := 1
    bCreateSessionOnDestroy := true
    LastNumPublicConnections := 4
    LastMatchType := "Ranked" }

/-! # Theorems -/

open UMultiplayerSessionsSubsystem

/-! ## Shared lemmas -/

/-- With the backend available, `DestroySession` only broadcasts `DestroyComplete(false)`. -/
theorem DestroySession_of_available (s : UMultiplayerSessionsSubsystem) (si : IOnlineSession)
    (h : s.SessionInterface = some si) :
    DestroySession s =
      Except.ok (s.Broadcast (Event.MultiplayerOnDestroySessionsComplete false)) := by
  simp [DestroySession, h]

/-- With the backend unavailable, `DestroySession` faults on the null pointer. -/
theorem DestroySession_of_unavailable (s : UMultiplayerSessionsSubsystem)
    (h : s.SessionInterface = none) :
    DestroySession s = Except.error Fault.nullDereference := by
  simp [DestroySession, h, deref]
  rfl

/-- What `CreateSession` does when the backend is available and the world has a local
player: it returns, one create request with the given capacity and match type has been
appended to the submissions, the create delegate has been added, and the deferred-create
members are overwritten exactly when the game session existed. -/
theorem CreateSession_of_available (n : Int) (mt : String) (s : UMultiplayerSessionsSubsystem)
    (si : IOnlineSession) (p : Nat)
    (h : s.SessionInterface = some si) (hp : s.LocalPlayer = some p) :
    ∃ s' si' settings,
      CreateSession n mt s = Except.ok s' ∧ s'.SessionInterface = some si' ∧
      s'.LocalPlayer = some p ∧
      si'.Submitted = si.Submitted ++ [Request.CreateSession p NAME_GameSession settings] ∧
      settings.NumPublicConnections = n ∧ settings.Get "MatchType" "" = (true, mt) ∧
      s'.bCreateSessionOnDestroy =
        (si.GetNamedSession NAME_GameSession || s.bCreateSessionOnDestroy) ∧
      s'.LastNumPublicConnections =
        (if si.GetNamedSession NAME_GameSession then n else s.LastNumPublicConnections) ∧
      s'.LastMatchType =
        (if si.GetNamedSession NAME_GameSession then mt else s.LastMatchType) ∧
      s'.Broadcasts = s.Broadcasts
        ++ (if si.GetNamedSession NAME_GameSession
            then [Event.MultiplayerOnDestroySessionsComplete false] else [])
        ++ (if si.CreateSessionAccepted
            then [] else [Event.MultiplayerOnCreateSessionComplete false]) ∧
      si'.DestroySessionCompleteDelegates = si.DestroySessionCompleteDelegates := by
  unfold CreateSession
  cases hex : si.GetNamedSession NAME_GameSession <;> cases hacc : si.CreateSessionAccepted <;>
    simp [h, hp, deref, hex, hacc, DestroySession, Broadcast, bind, Except.bind,
      IOnlineSession.CreateSession, IOnlineSession.AddOnCreateSessionCompleteDelegate_Handle,
      IOnlineSession.ClearOnCreateSessionCompleteDelegate_Handle,
      FOnlineSessionSettings.Set, FOnlineSessionSettings.Get, List.lookup]

/-- C1 (the code departs from the claim). Called with any capacity and match type while
the backend is available and the game session exists, `CreateSession` does not stop after
`DestroySession`: in the same call it adds the create delegate and submits a create
request to the backend. The only broadcast of the call is the `DestroyComplete(false)`
that `DestroySession` makes; no destroy request is submitted and no destroy delegate is
added. -/
theorem CreateSession_existing_session_submits_create_at_once (n : Int) (mt : String) :
    ∃ s' si' settings,
      CreateSession n mt subsystemWithSession = Except.ok s' ∧
      s'.SessionInterface = some si' ∧
      si'.Submitted = [Request.CreateSession 7 NAME_GameSession settings] ∧
      settings.NumPublicConnections = n ∧ settings.Get "MatchType" "" = (true, mt) ∧
      si'.CreateSessionCompleteDelegates = [1] ∧
      si'.DestroySessionCompleteDelegates = [] ∧
      s'.bCreateSessionOnDestroy = true ∧
      s'.LastNumPublicConnections = n ∧ s'.LastMatchType = mt ∧
      s'.Broadcasts = [Event.MultiplayerOnDestroySessionsComplete false] := by
  simp [CreateSession, subsystemWithSession, backendWithSession, deref, DestroySession,
    Broadcast, bind, Except.bind, IOnlineSession.GetNamedSession, NAME_GameSession,
    IOnlineSession.CreateSession, IOnlineSession.AddOnCreateSessionCompleteDelegate_Handle,
    FOnlineSessionSettings.Set, FOnlineSessionSettings.Get, List.lookup]

/-- C2 (the code departs from the claim). Whenever the backend is available,
`DestroySession` takes the branch of its guard: it only broadcasts `DestroyComplete(false)`
and returns. The backend is left exactly as it was, so no destroy delegate is added and no
destroy request is submitted, whatever reply the backend would have given. -/
theorem DestroySession_available_only_broadcasts_false (s : UMultiplayerSessionsSubsystem)
    (si : IOnlineSession) :
    DestroySession { s with SessionInterface := some si } =
      Except.ok
        { s with
          SessionInterface := some si
          Broadcasts := s.Broadcasts ++ [Event.MultiplayerOnDestroySessionsComplete false] } := by
  simp [DestroySession, Broadcast]

/-- C3 (the code departs from the claim). Whenever the backend is unavailable,
`DestroySession` skips its guard and reaches `SessionInterface->AddOnDestroy...` with a
null pointer: the call faults and no `DestroyComplete` is broadcast. -/
theorem DestroySession_unavailable_faults (s : UMultiplayerSessionsSubsystem) :
    DestroySession { s with SessionInterface := none } =
      Except.error Fault.nullDereference := by
  exact DestroySession_of_unavailable _ rfl

/-- C4 (the code departs from the claim). With the backend available,
`OnJoinSessionComplete` broadcasts exactly one `JoinComplete`, and it carries `Success`
whatever result code the backend reported; for a reported `SessionIsFull` the broadcast
differs from the reported code. -/
theorem OnJoinSessionComplete_always_broadcasts_Success (s : UMultiplayerSessionsSubsystem)
    (si : IOnlineSession) (SessionName : String) (r : EOnJoinSessionCompleteResult) :
    ∃ s',
      OnJoinSessionComplete SessionName r { s with SessionInterface := some si } =
        Except.ok s' ∧
      s'.Broadcasts = s.Broadcasts ++
        [Event.MultiplayerOnJoinSessionsComplete EOnJoinSessionCompleteResult.Success] ∧
      Event.MultiplayerOnJoinSessionsComplete EOnJoinSessionCompleteResult.Success ≠
        Event.MultiplayerOnJoinSessionsComplete EOnJoinSessionCompleteResult.SessionIsFull := by
  simp [OnJoinSessionComplete, deref, Broadcast, bind, Except.bind,
    IOnlineSession.AddOnJoinSessionCompleteDelegate_Handle]

/-- What the destroy completion handler does on a reported success when the deferred-create
flag is set, the backend is available without the game session, and the world has a local
player: the flag is cleared and one create request carrying the saved capacity and match
type is appended to the submissions. -/
theorem OnDestroySessionComplete_replays_saved (SessionName : String)
    (s : UMultiplayerSessionsSubsystem) (si : IOnlineSession) (p : Nat)
    (h : s.SessionInterface = some si) (hp : s.LocalPlayer = some p)
    (hflag : s.bCreateSessionOnDestroy = true)
    (hex : si.GetNamedSession NAME_GameSession = false) :
    ∃ s' si' settings,
      OnDestroySessionComplete SessionName true s = Except.ok s' ∧
      s'.SessionInterface = some si' ∧
      s'.bCreateSessionOnDestroy = false ∧
      si'.Submitted = si.Submitted ++ [Request.CreateSession p NAME_GameSession settings] ∧
      settings.NumPublicConnections = s.LastNumPublicConnections ∧
      settings.Get "MatchType" "" = (true, s.LastMatchType) := by
  have hex' : (si.ClearOnDestroySessionCompleteDelegate_Handle
      s.DestroySessionCompleteDelegateHandle).GetNamedSession NAME_GameSession = false := hex
  obtain ⟨s1, si1, st, h1, h2, -, h4, h5, h6, h7, -, -, -, -⟩ :=
    CreateSession_of_available s.LastNumPublicConnections s.LastMatchType
      { s with
        SessionInterface := some (si.ClearOnDestroySessionCompleteDelegate_Handle
          s.DestroySessionCompleteDelegateHandle)
        bCreateSessionOnDestroy := false }
      (si.ClearOnDestroySessionCompleteDelegate_Handle s.DestroySessionCompleteDelegateHandle)
      p rfl hp
  refine ⟨s1.Broadcast (Event.MultiplayerOnDestroySessionsComplete true), si1, st, ?_, h2, ?_,
    h4, h5, h6⟩
  · simp [OnDestroySessionComplete, h, hflag, bind, Except.bind, h1]
  · rw [hex'] at h7
    simpa [Broadcast] using h7

/-- Running a sequence of requests keeps the backend available and the local player in
place, keeps the deferred-create flag set once it is set, and leaves in the saved members
the configuration of the latest request made while the game session existed. -/
theorem issueAll_saved (cs : List CreateCall) :
    ∀ (A : CreateCall) (s : UMultiplayerSessionsSubsystem) (si : IOnlineSession) (p : Nat),
      s.SessionInterface = some si → s.LocalPlayer = some p →
      s.bCreateSessionOnDestroy = true →
      s.LastNumPublicConnections = A.NumPublicConnections →
      s.LastMatchType = A.MatchType →
      ∃ s2 si2,
        issueAll cs s = Except.ok s2 ∧ s2.SessionInterface = some si2 ∧
        s2.LocalPlayer = some p ∧ s2.bCreateSessionOnDestroy = true ∧
        s2.LastNumPublicConnections = (lastDeferred A cs).NumPublicConnections ∧
        s2.LastMatchType = (lastDeferred A cs).MatchType := by
  induction cs with
  | nil =>
    intro A s si p h hp hf hn hm
    exact ⟨s, si, rfl, h, hp, hf, hn, hm⟩
  | cons c cs ih =>
    intro A s si p h hp hf hn hm
    obtain ⟨s1, si1, -, h1, h2, h3, -, -, -, h7, h8, h9, -, -⟩ :=
      CreateSession_of_available c.NumPublicConnections c.MatchType
        (s.withBackend (fun si => si.atCall c.SessionExists c.Accepted))
        (si.atCall c.SessionExists c.Accepted) p (by simp [withBackend, h]) hp
    have hg : (si.atCall c.SessionExists c.Accepted).GetNamedSession NAME_GameSession
        = c.SessionExists := by
      cases hc : c.SessionExists <;> simp [IOnlineSession.atCall, IOnlineSession.GetNamedSession]
    rw [hg] at h7 h8 h9
    have hf1 : s1.bCreateSessionOnDestroy = true := by
      rw [h7]; simp [withBackend, hf]
    obtain ⟨s2, si2, e1, e2, e3, e4, e5, e6⟩ :=
      ih (if c.SessionExists then c else A) s1 si1 p h2 h3 hf1
        (by rw [h8]; cases c.SessionExists <;> simp [withBackend, hn])
        (by rw [h9]; cases c.SessionExists <;> simp [withBackend, hm])
    refine ⟨s2, si2, ?_, e2, e3, e4, e5, e6⟩
    simp only [issueAll, issue, h1]
    exact e1

/-- The create completion handler leaves no create delegate registered when exactly the
stored one was registered. -/
theorem OnCreateSessionComplete_leaves_none (s : UMultiplayerSessionsSubsystem)
    (si : IOnlineSession) (hd : FDelegateHandle) (SessionName : String) (b : Bool) :
    ∃ s' si',
      OnCreateSessionComplete SessionName b
        { s with
          SessionInterface := some { si with CreateSessionCompleteDelegates := [hd] }
          CreateSessionCompleteDelegateHandle := hd } = Except.ok s' ∧
      s'.SessionInterface = some si' ∧ si'.CreateSessionCompleteDelegates = [] := by
  simp [OnCreateSessionComplete, Broadcast,
    IOnlineSession.ClearOnCreateSessionCompleteDelegate_Handle]

/-- The find completion handler leaves no find delegate registered when exactly the stored
one was registered and a last search is held. -/
theorem OnFindSessionsComplete_leaves_none (s : UMultiplayerSessionsSubsystem)
    (si : IOnlineSession) (hd : FDelegateHandle) (q : FOnlineSessionSearch) (b : Bool) :
    ∃ s' si',
      OnFindSessionsComplete b
        { s with
          SessionInterface := some { si with FindSessionsCompleteDelegates := [hd] }
          FindSessionsCompleteDelegateHandle := hd
          LastSessionSearch := some q } = Except.ok s' ∧
      s'.SessionInterface = some si' ∧ si'.FindSessionsCompleteDelegates = [] := by
  cases hr : q.SearchResults <;>
    simp [OnFindSessionsComplete, deref, hr, Broadcast, bind, Except.bind,
      IOnlineSession.ClearOnFindSessionsCompleteDelegate_Handle]

/-- The destroy completion handler leaves no destroy delegate registered when exactly the
stored one was registered and the world has a local player, also when it replays a
deferred create. -/
theorem OnDestroySessionComplete_leaves_none (s : UMultiplayerSessionsSubsystem)
    (si : IOnlineSession) (hd : FDelegateHandle) (SessionName : String) (b : Bool) (p : Nat)
    (hp : s.LocalPlayer = some p) :
    ∃ s' si',
      OnDestroySessionComplete SessionName b
        { s with
          SessionInterface := some { si with DestroySessionCompleteDelegates := [hd] }
          DestroySessionCompleteDelegateHandle := hd } = Except.ok s' ∧
      s'.SessionInterface = some si' ∧ si'.DestroySessionCompleteDelegates = [] := by
  by_cases hc : (b && s.bCreateSessionOnDestroy) = true
  · obtain ⟨s1, si1, -, h1, h2, -, -, -, -, -, -, -, -, h11⟩ :=
      CreateSession_of_available s.LastNumPublicConnections s.LastMatchType
        { s with
          SessionInterface := some
            (({ si with DestroySessionCompleteDelegates := [hd] } :
              IOnlineSession).ClearOnDestroySessionCompleteDelegate_Handle hd)
          DestroySessionCompleteDelegateHandle := hd
          bCreateSessionOnDestroy := false }
        (({ si with DestroySessionCompleteDelegates := [hd] } :
          IOnlineSession).ClearOnDestroySessionCompleteDelegate_Handle hd) p rfl hp
    refine ⟨s1.Broadcast (Event.MultiplayerOnDestroySessionsComplete b), si1, ?_, h2, ?_⟩
    · simp only [Bool.and_eq_true] at hc
      simp [OnDestroySessionComplete, hc.1, hc.2, bind, Except.bind, h1]
    · rw [h11]
      simp [IOnlineSession.ClearOnDestroySessionCompleteDelegate_Handle]
  · simp only [Bool.not_eq_true] at hc
    simp [OnDestroySessionComplete, hc, bind, Except.bind, Broadcast,
      IOnlineSession.ClearOnDestroySessionCompleteDelegate_Handle]

/-- C5 (amended). Let the backend be available and the world have a local player. After
`CreateSession(A)` made while the game session exists and any sequence of further
`CreateSession` requests, a destroy completion that reports success while no game session
exists clears the deferred-create flag and submits one create request, which carries the
capacity and match type of the latest request of the sequence made while the game session
existed, and those of `A` when the sequence has no such request. -/
theorem deferred_create_replays_latest_deferred_request
    (s : UMultiplayerSessionsSubsystem) (si : IOnlineSession) (p : Nat)
    (A : CreateCall) (between : List CreateCall) (SessionName : String) (Accepted : Bool)
    (h : s.SessionInterface = some si) (hp : s.LocalPlayer = some p)
    (hA : A.SessionExists = true) :
    ∃ s2 si2 s3 si3 settings,
      issueAll (A :: between) s = Except.ok s2 ∧
      s2.SessionInterface = some si2 ∧
      OnDestroySessionComplete SessionName true
        (s2.withBackend (fun b => b.atCall false Accepted)) = Except.ok s3 ∧
      s3.SessionInterface = some si3 ∧
      s3.bCreateSessionOnDestroy = false ∧
      si3.Submitted = si2.Submitted ++ [Request.CreateSession p NAME_GameSession settings] ∧
      settings.NumPublicConnections = (lastDeferred A between).NumPublicConnections ∧
      settings.Get "MatchType" "" = (true, (lastDeferred A between).MatchType) := by
  obtain ⟨s1, si1, -, h1, h2, h3, -, -, -, h7, h8, h9, -, -⟩ :=
    CreateSession_of_available A.NumPublicConnections A.MatchType
      (s.withBackend (fun si => si.atCall A.SessionExists A.Accepted))
      (si.atCall A.SessionExists A.Accepted) p (by simp [withBackend, h]) hp
  have hg : (si.atCall A.SessionExists A.Accepted).GetNamedSession NAME_GameSession = true := by
    simp [hA, IOnlineSession.atCall, IOnlineSession.GetNamedSession]
  rw [hg] at h7 h8 h9
  obtain ⟨s2, si2, e1, e2, e3, e4, e5, e6⟩ :=
    issueAll_saved between A s1 si1 p h2 h3 (by simpa using h7) (by simpa using h8)
      (by simpa using h9)
  obtain ⟨s3, si3, st, d1, d2, d3, d4, d5, d6⟩ :=
    OnDestroySessionComplete_replays_saved SessionName
      (s2.withBackend (fun b => b.atCall false Accepted)) (si2.atCall false Accepted) p
      (by simp [withBackend, e2]) e3 e4
      (by simp [IOnlineSession.atCall, IOnlineSession.GetNamedSession])
  refine ⟨s2, si2, s3, si3, st, ?_, e2, d1, d2, d3, d4, ?_, ?_⟩
  · simp only [issueAll, issue, h1]
    exact e1
  · rw [d5]; exact e5
  · rw [d6]; exact congrArg (Prod.mk true) e6

/-- Witness for C5 (amended): `CreateSession(4, "Ranked")` with the game session existing,
no request in between, then a successful destroy completion. -/
theorem deferred_create_replays_latest_deferred_request_witness :
    subsystemWithSession.SessionInterface = some backendWithSession ∧
    subsystemWithSession.LocalPlayer = some 7 ∧
    (⟨4, "Ranked", true, true⟩ : CreateCall).SessionExists = true ∧
    ∃ s2 si2 s3 si3 settings,
      issueAll ((⟨4, "Ranked", true, true⟩ : CreateCall) :: []) subsystemWithSession
        = Except.ok s2 ∧
      s2.SessionInterface = some si2 ∧
      OnDestroySessionComplete NAME_GameSession true
        (s2.withBackend (fun b => b.atCall false true)) = Except.ok s3 ∧
      s3.SessionInterface = some si3 ∧
      s3.bCreateSessionOnDestroy = false ∧
      si3.Submitted = si2.Submitted ++ [Request.CreateSession 7 NAME_GameSession settings] ∧
      settings.NumPublicConnections =
        (lastDeferred ⟨4, "Ranked", true, true⟩ []).NumPublicConnections ∧
      settings.Get "MatchType" "" = (true, (lastDeferred ⟨4, "Ranked", true, true⟩ []).MatchType) :=
  ⟨rfl, rfl, rfl,
    deferred_create_replays_latest_deferred_request subsystemWithSession backendWithSession 7
      ⟨4, "Ranked", true, true⟩ [] NAME_GameSession true rfl rfl rfl⟩

/-- C5 (counterexample to the claim as stated). `CreateSession(4, "Ranked")` is called
while the game session exists, then `CreateSession(2, "Casual")` is called while it still
exists, then the destroy completion reports success with no game session left. The create
request the handler submits carries capacity 2 and match type "Casual", not those of the
first call. -/
theorem deferred_create_takes_intermediate_request :
    ∃ s2 s3 si3 settings,
      issueAll [⟨4, "Ranked", true, true⟩, ⟨2, "Casual", true, true⟩] subsystemWithSession
        = Except.ok s2 ∧
      OnDestroySessionComplete NAME_GameSession true
        (s2.withBackend (fun b => b.atCall false true)) = Except.ok s3 ∧
      s3.SessionInterface = some si3 ∧
      s3.bCreateSessionOnDestroy = false ∧
      si3.Submitted.getLast? = some (Request.CreateSession 7 NAME_GameSession settings) ∧
      settings.NumPublicConnections = 2 ∧
      settings.Get "MatchType" "" = (true, "Casual") ∧
      settings.NumPublicConnections ≠ 4 ∧
      settings.Get "MatchType" "" ≠ (true, "Ranked") := by
  refine ⟨_, _, _, _, rfl, rfl, rfl, rfl, rfl, rfl, rfl, ?_, ?_⟩ <;> decide

/-- C6. For every result list `L` held by the last search and every reported flag `b`,
`OnFindSessionsComplete(b)` returns having appended exactly one `FindComplete` to the
broadcasts: `FindComplete([], false)` when `L` is empty, whatever `b` is, and
`FindComplete(L, b)` when `L` is non-empty. -/
theorem OnFindSessionsComplete_broadcasts_once (s : UMultiplayerSessionsSubsystem)
    (q : FOnlineSessionSearch) (L : List FOnlineSessionSearchResult) (b : Bool)
    (hq : s.LastSessionSearch = some q) (hL : q.SearchResults = L) :
    ∃ s',
      OnFindSessionsComplete b s = Except.ok s' ∧
      (L = [] → s'.Broadcasts = s.Broadcasts ++ [Event.MultiplayerOnFindSessionsComplete [] false]) ∧
      (L ≠ [] → s'.Broadcasts = s.Broadcasts ++ [Event.MultiplayerOnFindSessionsComplete L b]) := by
  subst hL
  cases hsi : s.SessionInterface <;> cases hr : q.SearchResults <;>
    simp [OnFindSessionsComplete, hsi, hq, hr, deref, Broadcast, bind, Except.bind]

/-- Witness for C6: a last search holding one result, with the backend available. -/
theorem OnFindSessionsComplete_broadcasts_once_witness :
    ({ subsystemWithSession with
        LastSessionSearch := some ⟨10, true, [], [resultOfMatchType 1 "Ranked"]⟩ } :
      UMultiplayerSessionsSubsystem).LastSessionSearch
        = some ⟨10, true, [], [resultOfMatchType 1 "Ranked"]⟩ ∧
    (⟨10, true, [], [resultOfMatchType 1 "Ranked"]⟩ : FOnlineSessionSearch).SearchResults
      = [resultOfMatchType 1 "Ranked"] ∧
    ∃ s',
      OnFindSessionsComplete true
        { subsystemWithSession with
          LastSessionSearch := some ⟨10, true, [], [resultOfMatchType 1 "Ranked"]⟩ }
        = Except.ok s' ∧
      ([resultOfMatchType 1 "Ranked"] = [] →
        s'.Broadcasts = [] ++ [Event.MultiplayerOnFindSessionsComplete [] false]) ∧
      ([resultOfMatchType 1 "Ranked"] ≠ [] →
        s'.Broadcasts = [] ++
          [Event.MultiplayerOnFindSessionsComplete [resultOfMatchType 1 "Ranked"] true]) :=
  ⟨rfl, rfl,
    OnFindSessionsComplete_broadcasts_once
      { subsystemWithSession with
        LastSessionSearch := some ⟨10, true, [], [resultOfMatchType 1 "Ranked"]⟩ }
      ⟨10, true, [], [resultOfMatchType 1 "Ranked"]⟩ [resultOfMatchType 1 "Ranked"] true rfl rfl⟩

/-- C7 (amended). When the backend is unavailable, `CreateSession` and `FindSessions`
return at their guard for every argument value: the state is returned unchanged, so no
completion event is broadcast and nothing is submitted. -/
theorem unavailable_create_and_find_return_silently (n : Int) (mt : String) (k : Int)
    (s : UMultiplayerSessionsSubsystem) (h : s.SessionInterface = none) :
    CreateSession n mt s = Except.ok s ∧ FindSessions k s = Except.ok s := by
  simp [CreateSession, FindSessions, h]

/-- Witness for C7 (amended): the subsystem without a backend. -/
theorem unavailable_create_and_find_return_silently_witness :
    subsystemOffline.SessionInterface = none ∧
    CreateSession 4 "Ranked" subsystemOffline = Except.ok subsystemOffline ∧
    FindSessions 10 subsystemOffline = Except.ok subsystemOffline :=
  ⟨rfl, unavailable_create_and_find_return_silently 4 "Ranked" 10 subsystemOffline rfl⟩

/-- C7 (counterexample to the claim as stated). On the subsystem without a backend,
`CreateSession(4, "Ranked")` and `FindSessions(10)` return with the broadcast trace still
empty: neither a `CreateComplete(false)` nor a `FindComplete([], false)` is broadcast. -/
theorem unavailable_create_and_find_broadcast_nothing :
    (¬ ∃ s', CreateSession 4 "Ranked" subsystemOffline = Except.ok s' ∧
        s'.Broadcasts =
          subsystemOffline.Broadcasts ++ [Event.MultiplayerOnCreateSessionComplete false]) ∧
    (¬ ∃ s', FindSessions 10 subsystemOffline = Except.ok s' ∧
        s'.Broadcasts =
          subsystemOffline.Broadcasts ++ [Event.MultiplayerOnFindSessionsComplete [] false]) ∧
    (∃ s', CreateSession 4 "Ranked" subsystemOffline = Except.ok s' ∧ s'.Broadcasts = []) ∧
    (∃ s', FindSessions 10 subsystemOffline = Except.ok s' ∧ s'.Broadcasts = []) := by
  refine ⟨?_, ?_, ⟨_, rfl, rfl⟩, ⟨_, rfl, rfl⟩⟩
  · rintro ⟨s', h1, h2⟩
    have e : Except.ok subsystemOffline = Except.ok s' := h1
    cases e
    exact absurd h2 (by decide)
  · rintro ⟨s', h1, h2⟩
    have e : Except.ok subsystemOffline = Except.ok s' := h1
    cases e
    exact absurd h2 (by decide)

/-- C8. With the backend available, for every reported flag `b` the handler
`OnCreateSessionComplete` returns having removed the stored create handle from the create
delegates of the backend and having appended exactly one `CreateComplete(true)` to the
broadcasts; the flag `b` does not enter the result. -/
theorem OnCreateSessionComplete_deregisters_and_broadcasts_true
    (s : UMultiplayerSessionsSubsystem) (si : IOnlineSession) (SessionName : String) (b : Bool)
    (h : s.SessionInterface = some si) :
    ∃ s' si',
      OnCreateSessionComplete SessionName b s = Except.ok s' ∧
      s'.SessionInterface = some si' ∧
      s.CreateSessionCompleteDelegateHandle ∉ si'.CreateSessionCompleteDelegates ∧
      si'.CreateSessionCompleteDelegates =
        si.CreateSessionCompleteDelegates.filter
          (fun x => x != s.CreateSessionCompleteDelegateHandle) ∧
      s'.Broadcasts = s.Broadcasts ++ [Event.MultiplayerOnCreateSessionComplete true] ∧
      OnCreateSessionComplete SessionName b s = OnCreateSessionComplete SessionName (!b) s := by
  simp [OnCreateSessionComplete, h, Broadcast,
    IOnlineSession.ClearOnCreateSessionCompleteDelegate_Handle]

/-- Witness for C8: the create delegate with handle 1 is registered and stored, and the
backend reports a failed create. -/
theorem OnCreateSessionComplete_deregisters_and_broadcasts_true_witness :
    ({ subsystemWithSession with
        SessionInterface := some { backendWithSession with
          NextHandle := 2, CreateSessionCompleteDelegates := [1] }
        CreateSessionCompleteDelegateHandle := 1 } :
      UMultiplayerSessionsSubsystem).SessionInterface
      = some { backendWithSession with NextHandle := 2, CreateSessionCompleteDelegates := [1] } ∧
    ∃ s' si',
      OnCreateSessionComplete NAME_GameSession false
        { subsystemWithSession with
          SessionInterface := some { backendWithSession with
            NextHandle := 2, CreateSessionCompleteDelegates := [1] }
          CreateSessionCompleteDelegateHandle := 1 } = Except.ok s' ∧
      s'.SessionInterface = some si' ∧
      1 ∉ si'.CreateSessionCompleteDelegates ∧
      si'.CreateSessionCompleteDelegates = [1].filter (fun x => x != 1) ∧
      s'.Broadcasts = [] ++ [Event.MultiplayerOnCreateSessionComplete true] ∧
      OnCreateSessionComplete NAME_GameSession false
        { subsystemWithSession with
          SessionInterface := some { backendWithSession with
            NextHandle := 2, CreateSessionCompleteDelegates := [1] }
          CreateSessionCompleteDelegateHandle := 1 } =
      OnCreateSessionComplete NAME_GameSession (!false)
        { subsystemWithSession with
          SessionInterface := some { backendWithSession with
            NextHandle := 2, CreateSessionCompleteDelegates := [1] }
          CreateSessionCompleteDelegateHandle := 1 } :=
  ⟨rfl,
    OnCreateSessionComplete_deregisters_and_broadcasts_true
      { subsystemWithSession with
        SessionInterface := some { backendWithSession with
          NextHandle := 2, CreateSessionCompleteDelegates := [1] }
        CreateSessionCompleteDelegateHandle := 1 }
      { backendWithSession with NextHandle := 2, CreateSessionCompleteDelegates := [1] }
      NAME_GameSession false rfl⟩

/-- C9 (the code departs from the claim for the join kind). Start from any state in which
the backend is available and exactly one join delegate is registered, under the stored
join handle. When `OnJoinSessionComplete` has run and broadcast its `JoinComplete`, a join
delegate is registered again: the handler removes the stored one and then adds a new one,
which is left registered. -/
theorem OnJoinSessionComplete_leaves_join_delegate_registered
    (s : UMultiplayerSessionsSubsystem) (si : IOnlineSession) (hd : FDelegateHandle)
    (SessionName : String) (r : EOnJoinSessionCompleteResult) :
    ∃ s' si',
      OnJoinSessionComplete SessionName r
        { s with
          SessionInterface := some { si with JoinSessionCompleteDelegates := [hd] }
          JoinSessionCompleteDelegateHandle := hd } = Except.ok s' ∧
      s'.SessionInterface = some si' ∧
      si'.JoinSessionCompleteDelegates = [si.NextHandle] ∧
      s'.JoinSessionCompleteDelegateHandle = si.NextHandle ∧
      s'.Broadcasts = s.Broadcasts ++
        [Event.MultiplayerOnJoinSessionsComplete EOnJoinSessionCompleteResult.Success] := by
  simp [OnJoinSessionComplete, deref, Broadcast, bind, Except.bind,
    IOnlineSession.AddOnJoinSessionCompleteDelegate_Handle,
    IOnlineSession.ClearOnJoinSessionCompleteDelegate_Handle]

/-- A result that has a MatchType attribute equal to `mt` to the letter also matches `mt`
under the comparison the menu makes. -/
theorem HasMatchType_matches (r : FOnlineSessionSearchResult) (mt : String)
    (h : HasMatchType r mt = true) : FStringEquals (MatchTypeAttribute r) mt = true := by
  have e : r.Session.SessionSettings.Get "MatchType" "" = (true, mt) := by
    simpa [HasMatchType] using h
  simp [MatchTypeAttribute, e, FStringEquals]

/-- The loop of `OnFindSessions` runs to its end when no result matches the remembered
match type. -/
theorem OnFindSessionsLoop_none (m : UMenu) (L : List FOnlineSessionSearchResult)
    (h : ∀ x ∈ L, FStringEquals (MatchTypeAttribute x) m.MatchType = false) :
    m.OnFindSessionsLoop L = none := by
  induction L with
  | nil => rfl
  | cons a rest ih =>
    have ha : FStringEquals (MatchTypeAttribute a) m.MatchType = false :=
      h a (List.mem_cons_self a rest)
    have hr : ∀ x ∈ rest, FStringEquals (MatchTypeAttribute x) m.MatchType = false :=
      fun x hx => h x (List.mem_cons_of_mem a hx)
    unfold MatchTypeAttribute at ha
    simp [UMenu.OnFindSessionsLoop, ha, ih hr]

/-- When some result matches the remembered match type, the loop of `OnFindSessions`
returns at the first such result, having logged one `JoinSession` call on it. -/
theorem OnFindSessionsLoop_first (m : UMenu) (L : List FOnlineSessionSearchResult)
    (h : ∃ x ∈ L, FStringEquals (MatchTypeAttribute x) m.MatchType = true) :
    ∃ pre r post,
      L = pre ++ r :: post ∧
      (∀ x ∈ pre, FStringEquals (MatchTypeAttribute x) m.MatchType = false) ∧
      FStringEquals (MatchTypeAttribute r) m.MatchType = true ∧
      m.OnFindSessionsLoop L =
        some { m with SubsystemCalls := m.SubsystemCalls ++ [SubsystemCall.JoinSession r] } := by
  induction L with
  | nil => obtain ⟨x, hx, -⟩ := h; cases hx
  | cons a rest ih =>
    cases ha : FStringEquals (MatchTypeAttribute a) m.MatchType with
    | true =>
      refine ⟨[], a, rest, rfl, ?_, ha, ?_⟩
      · intro x hx; cases hx
      · unfold MatchTypeAttribute at ha
        simp [UMenu.OnFindSessionsLoop, ha]
    | false =>
      have h' : ∃ x ∈ rest, FStringEquals (MatchTypeAttribute x) m.MatchType = true := by
        obtain ⟨x, hx, hm⟩ := h
        rcases List.mem_cons.mp hx with rfl | hx'
        · rw [ha] at hm; cases hm
        · exact ⟨x, hx', hm⟩
      obtain ⟨pre, r, post, e, hpre, hr, hl⟩ := ih h'
      refine ⟨a :: pre, r, post, by rw [e]; rfl, ?_, hr, ?_⟩
      · intro x hx
        rcases List.mem_cons.mp hx with rfl | hx'
        · exact ha
        · exact hpre x hx'
      · unfold MatchTypeAttribute at ha
        simp [UMenu.OnFindSessionsLoop, ha, hl]

/-- C10 (amended). Let the menu hold its subsystem, as it does whenever the find handler
is bound. Say that a result matches when the value read for its MatchType attribute, which
is the empty string when the result has no such attribute, equals the remembered match type
under `FString ==`, which ignores case. For every result list and success flag passed to
`OnFindSessions`: if some result matches, the list splits at the first matching result `r`
(no result before it matches) and the handler makes exactly one call on the subsystem,
`JoinSession(r)`; if no result matches, the handler makes no call. A result whose
attribute equals the remembered match type to the letter is a matching one. -/
theorem OnFindSessions_joins_first_match_only (m : UMenu)
    (L : List FOnlineSessionSearchResult) (b : Bool)
    (hsub : m.MultiplayerSessionsSubsystem = true) :
    ((∃ x ∈ L, FStringEquals (MatchTypeAttribute x) m.MatchType = true) →
      ∃ pre r post,
        L = pre ++ r :: post ∧
        (∀ x ∈ pre, FStringEquals (MatchTypeAttribute x) m.MatchType = false) ∧
        FStringEquals (MatchTypeAttribute r) m.MatchType = true ∧
        (m.OnFindSessions L b).SubsystemCalls =
          m.SubsystemCalls ++ [SubsystemCall.JoinSession r]) ∧
    ((∀ x ∈ L, FStringEquals (MatchTypeAttribute x) m.MatchType = false) →
      (m.OnFindSessions L b).SubsystemCalls = m.SubsystemCalls) ∧
    (∀ x ∈ L, HasMatchType x m.MatchType = true →
      FStringEquals (MatchTypeAttribute x) m.MatchType = true) := by
  refine ⟨?_, ?_, ?_⟩
  · intro h
    obtain ⟨pre, r, post, e, hpre, hr, hl⟩ := OnFindSessionsLoop_first m L h
    refine ⟨pre, r, post, e, hpre, hr, ?_⟩
    simp [UMenu.OnFindSessions, hsub, hl]
  · intro h
    have hl := OnFindSessionsLoop_none m L h
    simp only [UMenu.OnFindSessions, hsub, hl]
    cases b <;> cases L <;> simp
  · intro x _ hx
    exact HasMatchType_matches x m.MatchType hx

/-- Witness for C10 (amended): three results with match types "Ranked", "NOSKOV" and
"Noskov" against the remembered match type "Noskov"; the one call made is `JoinSession` on
the second, which matches ignoring case. -/
theorem OnFindSessions_joins_first_match_only_witness :
    menuAfterJoinClick.MultiplayerSessionsSubsystem = true ∧
    (menuAfterJoinClick.OnFindSessions
      [resultOfMatchType 1 "Ranked", resultOfMatchType 2 "NOSKOV", resultOfMatchType 3 "Noskov"]
      true).SubsystemCalls =
        menuAfterJoinClick.SubsystemCalls ++
          [SubsystemCall.JoinSession (resultOfMatchType 2 "NOSKOV")] ∧
    (((∃ x ∈ [resultOfMatchType 1 "Ranked", resultOfMatchType 2 "NOSKOV",
          resultOfMatchType 3 "Noskov"],
        FStringEquals (MatchTypeAttribute x) menuAfterJoinClick.MatchType = true) →
      ∃ pre r post,
        [resultOfMatchType 1 "Ranked", resultOfMatchType 2 "NOSKOV",
          resultOfMatchType 3 "Noskov"] = pre ++ r :: post ∧
        (∀ x ∈ pre, FStringEquals (MatchTypeAttribute x) menuAfterJoinClick.MatchType = false) ∧
        FStringEquals (MatchTypeAttribute r) menuAfterJoinClick.MatchType = true ∧
        (menuAfterJoinClick.OnFindSessions
          [resultOfMatchType 1 "Ranked", resultOfMatchType 2 "NOSKOV",
            resultOfMatchType 3 "Noskov"] true).SubsystemCalls =
          menuAfterJoinClick.SubsystemCalls ++ [SubsystemCall.JoinSession r]) ∧
    ((∀ x ∈ [resultOfMatchType 1 "Ranked", resultOfMatchType 2 "NOSKOV",
          resultOfMatchType 3 "Noskov"],
        FStringEquals (MatchTypeAttribute x) menuAfterJoinClick.MatchType = false) →
      (menuAfterJoinClick.OnFindSessions
        [resultOfMatchType 1 "Ranked", resultOfMatchType 2 "NOSKOV",
          resultOfMatchType 3 "Noskov"] true).SubsystemCalls =
        menuAfterJoinClick.SubsystemCalls) ∧
    (∀ x ∈ [resultOfMatchType 1 "Ranked", resultOfMatchType 2 "NOSKOV",
          resultOfMatchType 3 "Noskov"],
      HasMatchType x menuAfterJoinClick.MatchType = true →
        FStringEquals (MatchTypeAttribute x) menuAfterJoinClick.MatchType = true)) :=
  ⟨rfl, by decide,
    OnFindSessions_joins_first_match_only menuAfterJoinClick
      [resultOfMatchType 1 "Ranked", resultOfMatchType 2 "NOSKOV", resultOfMatchType 3 "Noskov"]
      true rfl⟩

/-- C10 (counterexamples to the claim as stated). In both cases the menu holds its
subsystem and no result has a MatchType attribute equal to the remembered match type, yet
the handler calls `JoinSession`.
First, the remembered match type is "Noskov" and the one result has MatchType "noskov":
the comparison ignores case.
Second, the remembered match type is the empty string and the one result has no MatchType
attribute: the value read for it is the empty string. -/
theorem OnFindSessions_joins_without_equal_attribute :
    (menuAfterJoinClick.MultiplayerSessionsSubsystem = true ∧
      menuAfterJoinClick.MatchType = "Noskov" ∧
      (∀ x ∈ [resultOfMatchType 1 "noskov"],
        HasMatchType x menuAfterJoinClick.MatchType = false) ∧
      (menuAfterJoinClick.OnFindSessions [resultOfMatchType 1 "noskov"] true).SubsystemCalls =
        menuAfterJoinClick.SubsystemCalls ++
          [SubsystemCall.JoinSession (resultOfMatchType 1 "noskov")]) ∧
    (menuWithEmptyMatchType.MultiplayerSessionsSubsystem = true ∧
      menuWithEmptyMatchType.MatchType = "" ∧
      (resultWithoutMatchType 1).Session.SessionSettings.Get "MatchType" "" = (false, "") ∧
      (∀ x ∈ [resultWithoutMatchType 1],
        HasMatchType x menuWithEmptyMatchType.MatchType = false) ∧
      (menuWithEmptyMatchType.OnFindSessions [resultWithoutMatchType 1] true).SubsystemCalls =
        menuWithEmptyMatchType.SubsystemCalls ++
          [SubsystemCall.JoinSession (resultWithoutMatchType 1)]) := by
  refine ⟨⟨rfl, rfl, by decide, by decide⟩, ⟨rfl, rfl, rfl, by decide, by decide⟩⟩

/-- C11 (amended). Let the menu hold its subsystem. For every result list none of whose
results matches the remembered match type (the value read for the MatchType attribute,
empty when the attribute is absent, compared under `FString ==`, which ignores case), and
for either value of the success flag, `OnFindSessions` makes no call on the subsystem, so
no `JoinSession`; and when the success flag is false or the list is empty it enables the
join button. -/
theorem OnFindSessions_no_match_no_join (m : UMenu) (L : List FOnlineSessionSearchResult)
    (b : Bool) (hsub : m.MultiplayerSessionsSubsystem = true)
    (hno : ∀ x ∈ L, FStringEquals (MatchTypeAttribute x) m.MatchType = false) :
    (m.OnFindSessions L b).SubsystemCalls = m.SubsystemCalls ∧
    ((b = false ∨ L = []) → (m.OnFindSessions L b).JoinButtonEnabled = true) := by
  have hl := OnFindSessionsLoop_none m L hno
  constructor
  · simp only [UMenu.OnFindSessions, hsub, hl]
    cases b <;> cases L <;> simp
  · rintro (hb | hL)
    · subst hb
      simp [UMenu.OnFindSessions, hsub, hl]
    · subst hL
      simp [UMenu.OnFindSessions, hsub, hl]

/-- Witness for C11 (amended): three results, none matching the remembered match type
"Noskov", delivered with the success flag false. -/
theorem OnFindSessions_no_match_no_join_witness :
    menuAfterJoinClick.MultiplayerSessionsSubsystem = true ∧
    (∀ x ∈ [resultOfMatchType 1 "Ranked", resultOfMatchType 2 "Casual",
        resultOfMatchType 3 "Duel"],
      FStringEquals (MatchTypeAttribute x) menuAfterJoinClick.MatchType = false) ∧
    (menuAfterJoinClick.OnFindSessions
      [resultOfMatchType 1 "Ranked", resultOfMatchType 2 "Casual", resultOfMatchType 3 "Duel"]
      false).SubsystemCalls = menuAfterJoinClick.SubsystemCalls ∧
    ((false = false ∨
        [resultOfMatchType 1 "Ranked", resultOfMatchType 2 "Casual",
          resultOfMatchType 3 "Duel"] = []) →
      (menuAfterJoinClick.OnFindSessions
        [resultOfMatchType 1 "Ranked", resultOfMatchType 2 "Casual", resultOfMatchType 3 "Duel"]
        false).JoinButtonEnabled = true) :=
  ⟨rfl, by decide,
    OnFindSessions_no_match_no_join menuAfterJoinClick
      [resultOfMatchType 1 "Ranked", resultOfMatchType 2 "Casual", resultOfMatchType 3 "Duel"]
      false rfl (by decide)⟩

/-- C11 (counterexamples to the claim as stated). The menu holds its subsystem and its
join button is disabled.
First, three results arrive, none with the remembered match type "Noskov" under either
comparison, with the success flag true: the handler makes no call on the subsystem and the
join button is still disabled afterwards.
Second, one result with MatchType "noskov" arrives with the success flag false: no result
has a MatchType attribute equal to "Noskov", yet the handler calls `JoinSession` on it
(the comparison ignores case). -/
theorem OnFindSessions_no_match_success_leaves_button_disabled :
    (menuAfterJoinClick.MultiplayerSessionsSubsystem = true ∧
      menuAfterJoinClick.JoinButtonEnabled = false ∧
      (∀ x ∈ [resultOfMatchType 1 "Ranked", resultOfMatchType 2 "Casual",
          resultOfMatchType 3 "Duel"],
        MatchTypeAttribute x ≠ menuAfterJoinClick.MatchType ∧
        HasMatchType x menuAfterJoinClick.MatchType = false ∧
        FStringEquals (MatchTypeAttribute x) menuAfterJoinClick.MatchType = false) ∧
      (menuAfterJoinClick.OnFindSessions
        [resultOfMatchType 1 "Ranked", resultOfMatchType 2 "Casual", resultOfMatchType 3 "Duel"]
        true).SubsystemCalls = menuAfterJoinClick.SubsystemCalls ∧
      (menuAfterJoinClick.OnFindSessions
        [resultOfMatchType 1 "Ranked", resultOfMatchType 2 "Casual", resultOfMatchType 3 "Duel"]
        true).JoinButtonEnabled = false ∧
      ¬ (menuAfterJoinClick.OnFindSessions
        [resultOfMatchType 1 "Ranked", resultOfMatchType 2 "Casual", resultOfMatchType 3 "Duel"]
        true).JoinButtonEnabled = true) ∧
    ((∀ x ∈ [resultOfMatchType 1 "noskov"],
        HasMatchType x menuAfterJoinClick.MatchType = false) ∧
      (menuAfterJoinClick.OnFindSessions [resultOfMatchType 1 "noskov"] false).SubsystemCalls =
        menuAfterJoinClick.SubsystemCalls ++
          [SubsystemCall.JoinSession (resultOfMatchType 1 "noskov")]) := by
  refine ⟨⟨rfl, rfl, by decide, by decide, by decide, by decide⟩, ⟨by decide, by decide⟩⟩

/-- On a reported success with the deferred-create flag set, the backend available and a
local player present, the destroy completion handler returns having submitted one create
request that carries the saved capacity and match type, whether or not the game session
exists at that moment. -/
theorem OnDestroySessionComplete_success_submits_saved (SessionName : String)
    (s : UMultiplayerSessionsSubsystem) (si : IOnlineSession) (p : Nat)
    (h : s.SessionInterface = some si) (hp : s.LocalPlayer = some p)
    (hflag : s.bCreateSessionOnDestroy = true) :
    ∃ s' si' settings,
      OnDestroySessionComplete SessionName true s = Except.ok s' ∧
      s'.SessionInterface = some si' ∧
      si'.Submitted = si.Submitted ++ [Request.CreateSession p NAME_GameSession settings] ∧
      settings.NumPublicConnections = s.LastNumPublicConnections ∧
      settings.Get "MatchType" "" = (true, s.LastMatchType) := by
  obtain ⟨s1, si1, st, h1, h2, -, h4, h5, h6, -, -, -, -, -⟩ :=
    CreateSession_of_available s.LastNumPublicConnections s.LastMatchType
      { s with
        SessionInterface := some (si.ClearOnDestroySessionCompleteDelegate_Handle
          s.DestroySessionCompleteDelegateHandle)
        bCreateSessionOnDestroy := false }
      (si.ClearOnDestroySessionCompleteDelegate_Handle s.DestroySessionCompleteDelegateHandle)
      p rfl hp
  refine ⟨s1.Broadcast (Event.MultiplayerOnDestroySessionsComplete true), si1, st, ?_, h2,
    h4, h5, h6⟩
  simp [OnDestroySessionComplete, h, hflag, bind, Except.bind, h1]

/-- C12. When `OnDestroySessionComplete` runs with the success flag false while the
deferred-create flag is set, it returns a state that differs from the one it started in
only by the removal of the stored destroy handle from the destroy delegates and by one
appended `DestroyComplete(false)`: nothing that `CreateSession` does has happened, and the
deferred-create flag and the saved capacity and match type are as before. The deferred
create is therefore still pending: at the next destroy completion that reports success,
with the backend available (in whatever state) and a local player present, the handler
submits a create request carrying the saved capacity and match type. -/
theorem OnDestroySessionComplete_failure_keeps_deferred_create
    (s : UMultiplayerSessionsSubsystem) (SessionName : String)
    (hflag : s.bCreateSessionOnDestroy = true) :
    ∃ s1,
      OnDestroySessionComplete SessionName false s = Except.ok s1 ∧
      s1 =
        { s with
          SessionInterface := s.SessionInterface.map
            (fun si => si.ClearOnDestroySessionCompleteDelegate_Handle
              s.DestroySessionCompleteDelegateHandle)
          Broadcasts := s.Broadcasts ++ [Event.MultiplayerOnDestroySessionsComplete false] } ∧
      s1.bCreateSessionOnDestroy = true ∧
      s1.LastNumPublicConnections = s.LastNumPublicConnections ∧
      s1.LastMatchType = s.LastMatchType ∧
      (∀ si, s.SessionInterface = some si →
        ∃ si1, s1.SessionInterface = some si1 ∧
          si1.Submitted = si.Submitted ∧
          si1.CreateSessionCompleteDelegates = si.CreateSessionCompleteDelegates) ∧
      (∀ (NextName : String) (si2 : IOnlineSession) (p : Nat), s.LocalPlayer = some p →
        ∃ s2 si3 settings,
          OnDestroySessionComplete NextName true { s1 with SessionInterface := some si2 }
            = Except.ok s2 ∧
          s2.SessionInterface = some si3 ∧
          si3.Submitted = si2.Submitted ++ [Request.CreateSession p NAME_GameSession settings] ∧
          settings.NumPublicConnections = s.LastNumPublicConnections ∧
          settings.Get "MatchType" "" = (true, s.LastMatchType)) := by
  have e : OnDestroySessionComplete SessionName false s =
      Except.ok
        { s with
          SessionInterface := s.SessionInterface.map
            (fun si => si.ClearOnDestroySessionCompleteDelegate_Handle
              s.DestroySessionCompleteDelegateHandle)
          Broadcasts := s.Broadcasts ++ [Event.MultiplayerOnDestroySessionsComplete false] } := by
    cases hsi : s.SessionInterface <;>
      simp [OnDestroySessionComplete, hsi, bind, Except.bind, Broadcast]
  refine ⟨_, e, rfl, hflag, rfl, rfl, ?_, ?_⟩
  · intro si hsi
    exact ⟨si.ClearOnDestroySessionCompleteDelegate_Handle
      s.DestroySessionCompleteDelegateHandle, by simp [hsi], rfl, rfl⟩
  · intro NextName si2 p hp
    exact OnDestroySessionComplete_success_submits_saved NextName _ si2 p rfl hp hflag

/-- Witness for C12: the failed completion on `subsystemAwaitingDestroy`, which has
`CreateSession(4, "Ranked")` saved, followed by a successful completion on the same
backend: the request submitted then carries capacity 4 and match type "Ranked". -/
theorem OnDestroySessionComplete_failure_keeps_deferred_create_witness :
    subsystemAwaitingDestroy.bCreateSessionOnDestroy = true ∧
    subsystemAwaitingDestroy.LocalPlayer = some 7 ∧
    (∃ s1 s2 si3 settings,
      OnDestroySessionComplete NAME_GameSession false subsystemAwaitingDestroy = Except.ok s1 ∧
      s1.Broadcasts = [Event.MultiplayerOnDestroySessionsComplete false] ∧
      OnDestroySessionComplete NAME_GameSession true s1 = Except.ok s2 ∧
      s2.SessionInterface = some si3 ∧
      si3.Submitted = [Request.CreateSession 7 NAME_GameSession settings] ∧
      settings.NumPublicConnections = 4 ∧
      settings.Get "MatchType" "" = (true, "Ranked")) ∧
    ∃ s1,
      OnDestroySessionComplete NAME_GameSession false subsystemAwaitingDestroy = Except.ok s1 ∧
      s1 =
        { subsystemAwaitingDestroy with
          SessionInterface := subsystemAwaitingDestroy.SessionInterface.map
            (fun si => si.ClearOnDestroySessionCompleteDelegate_Handle
              subsystemAwaitingDestroy.DestroySessionCompleteDelegateHandle)
          Broadcasts := subsystemAwaitingDestroy.Broadcasts ++
            [Event.MultiplayerOnDestroySessionsComplete false] } ∧
      s1.bCreateSessionOnDestroy = true ∧
      s1.LastNumPublicConnections = subsystemAwaitingDestroy.LastNumPublicConnections ∧
      s1.LastMatchType = subsystemAwaitingDestroy.LastMatchType ∧
      (∀ si, subsystemAwaitingDestroy.SessionInterface = some si →
        ∃ si1, s1.SessionInterface = some si1 ∧
          si1.Submitted = si.Submitted ∧
          si1.CreateSessionCompleteDelegates = si.CreateSessionCompleteDelegates) ∧
      (∀ (NextName : String) (si2 : IOnlineSession) (p : Nat),
        subsystemAwaitingDestroy.LocalPlayer = some p →
        ∃ s2 si3 settings,
          OnDestroySessionComplete NextName true { s1 with SessionInterface := some si2 }
            = Except.ok s2 ∧
          s2.SessionInterface = some si3 ∧
          si3.Submitted = si2.Submitted ++ [Request.CreateSession p NAME_GameSession settings] ∧
          settings.NumPublicConnections = subsystemAwaitingDestroy.LastNumPublicConnections ∧
          settings.Get "MatchType" "" = (true, subsystemAwaitingDestroy.LastMatchType)) :=
  ⟨rfl, rfl, ⟨_, _, _, _, rfl, rfl, rfl, rfl, rfl, rfl, rfl⟩,
    OnDestroySessionComplete_failure_keeps_deferred_create subsystemAwaitingDestroy
      NAME_GameSession rfl⟩

end MultiplayerSessions
